import Mathlib

/-!
Shallow embedding of the ingestion-and-alerting pipeline of
src/src/data_collector.py together with the configuration constants of
src/config/settings.py.

Modelling conventions:
- Python floats are modelled as rationals (all comparisons in the source
  are exact order comparisons on decoded numbers).
- The SQLite database is modelled as an in-memory `Store` (a list of
  reading rows and a list of alert rows); a row insert appends to the
  list, mirroring the AUTOINCREMENT append-only schema of
  `setup_database`, which declares no uniqueness constraint besides the
  synthetic primary key.
- A possible persistence failure (the `except` branches around the SQLite
  calls) is modelled by an explicit `dbOk : Bool` argument: `dbOk = true`
  means the database operations of the call succeed, `dbOk = false` means
  they raise, landing in the `except` handler of the function.
- `datetime.now().isoformat()` is modelled by an explicit `now : String`
  argument threaded to the functions that call it.
- The Python return value of a function with no `return` statement is
  `None`; `PyRet` models the value returned to the caller by `save_alerts`.
-/

namespace EnvMonitor

/-- Alert thresholds of `config/settings.py` (`self.config.*` in
`check_alerts`), kept as an explicit record so theorems can quantify over
the configuration. -/
structure Thresholds where
  temperatureMin : ℚ
  temperatureMax : ℚ
  humidityMin : ℚ
  humidityMax : ℚ
  batteryLow : ℚ
deriving Repr, DecidableEq

namespace Config

/-- Embeds `Config.TTN_DEVICE_ID` of config/settings.py. -/
def TTN_DEVICE_ID : String := "lht65n-01-temp-humidity-sensor"

/-- Embeds `Config.SENSOR_FIELDS` of config/settings.py: logical sensor name to
provider field key. -/
def SENSOR_FIELDS : List (String × String) :=
  [("battery", "field1"), ("humidity", "field3"),
   ("motion", "field4"), ("temperature", "field5")]

/-- The concrete alert thresholds of config/settings.py. -/
def thresholds : Thresholds :=
  { temperatureMin := 15, temperatureMax := 35,
    humidityMin := 30, humidityMax := 80, batteryLow := 3 }

end Config

/-- One row of the `sensor_readings` table (columns of `setup_database`,
minus the synthetic `id` and `created_at` columns). -/
structure Reading where
  timestamp : String
  temperature : ℚ
  humidity : ℚ
  battery_voltage : ℚ
  motion_count : Int
  device_id : String
  raw_data : String
deriving Repr, DecidableEq

/-- One row of the `alerts` table (columns of `setup_database`, minus the
synthetic `id` and `created_at` columns); `resolved` takes its schema
default FALSE on insert. -/
structure Alert where
  timestamp : String
  alert_type : String
  message : String
  value : ℚ
  threshold : ℚ
  resolved : Bool
deriving Repr, DecidableEq

/-- The database state: the rows of the two tables, in insertion order. -/
structure Store where
  readings : List Reading
  alerts : List Alert
deriving Repr, DecidableEq

/-- A Python return value as seen by a caller: either an explicit bool or
the implicit None of a function body with no return statement. -/
inductive PyRet where
  | pyNone : PyRet
  | pyBool : Bool → PyRet
deriving Repr, DecidableEq

/-- Abstraction of Python percent-style one-decimal float formatting used
in the log/alert message strings; only determinism matters here, no claim
inspects the rendered text. -/
def pyFmt (q : ℚ) : String := toString q

/-- Python `int(x)` on a number: truncation toward zero. -/
def pyInt (q : ℚ) : Int := q.num.tdiv (q.den : Int)

/-- Embeds `save_sensor_data` (data_collector.py lines 87-108): inserts one row
into `sensor_readings` with `device_id` taken from
`Config.TTN_DEVICE_ID`, returning True on success; a database exception
is caught and False is returned, the store unchanged. -/
def save_sensor_data (dbOk : Bool) (temperature humidity battery : ℚ)
    (motion : Int) (timestamp raw_data : String) (st : Store) :
    Store × Bool :=
  if dbOk then
    ({ st with readings := st.readings ++
        [{ timestamp := timestamp, temperature := temperature,
           humidity := humidity, battery_voltage := battery,
           motion_count := motion, device_id := Config.TTN_DEVICE_ID,
           raw_data := raw_data }] }, true)
  else
    (st, false)

/-- The alert-tuple built by `check_alerts`:
(alert_type, message, value, threshold). -/
abbrev AlertTuple := String × String × ℚ × ℚ

/-- The row inserted for one alert tuple by `save_alerts`: timestamp is
`datetime.now().isoformat()` at write time, `resolved` defaults FALSE. -/
def mkAlert (now : String) (a : AlertTuple) : Alert :=
  { timestamp := now, alert_type := a.1, message := a.2.1,
    value := a.2.2.1, threshold := a.2.2.2, resolved := false }

/-- Embeds `save_alerts` (data_collector.py lines 131-149): inserts one `alerts`
row per tuple, stamped with the current wall-clock time `now`; a database
exception is caught and logged inside the function, and in either case
the function body has no return statement, so the caller receives None. -/
def save_alerts (dbOk : Bool) (now : String) (alerts : List AlertTuple)
    (st : Store) : Store × PyRet :=
  if dbOk then
    ({ st with alerts := st.alerts ++ alerts.map (mkAlert now) },
     PyRet.pyNone)
  else
    (st, PyRet.pyNone)

/-- The alert list built by `check_alerts` (data_collector.py lines
112-125): an if/elif pair for temperature, an if/elif pair for humidity,
a single if for battery, all strict comparisons. -/
def computeAlerts (cfg : Thresholds) (temperature humidity battery : ℚ) :
    List AlertTuple :=
  (if temperature < cfg.temperatureMin then
    [("TEMP_LOW", "Temperature too low: " ++ pyFmt temperature ++ "°C",
      temperature, cfg.temperatureMin)]
   else if temperature > cfg.temperatureMax then
    [("TEMP_HIGH", "Temperature too high: " ++ pyFmt temperature ++ "°C",
      temperature, cfg.temperatureMax)]
   else [])
  ++
  (if humidity < cfg.humidityMin then
    [("HUMIDITY_LOW", "Humidity too low: " ++ pyFmt humidity ++ "%",
      humidity, cfg.humidityMin)]
   else if humidity > cfg.humidityMax then
    [("HUMIDITY_HIGH", "Humidity too high: " ++ pyFmt humidity ++ "%",
      humidity, cfg.humidityMax)]
   else [])
  ++
  (if battery < cfg.batteryLow then
    [("BATTERY_LOW", "Battery low: " ++ pyFmt battery ++ "V",
      battery, cfg.batteryLow)]
   else [])

/-- Embeds `check_alerts` (data_collector.py lines 110-129): builds the alert
list and, when it is non-empty, persists it through `save_alerts`. -/
def check_alerts (cfg : Thresholds) (dbOk : Bool) (now : String)
    (temperature humidity battery : ℚ) (st : Store) : Store :=
  let alerts := computeAlerts cfg temperature humidity battery
  if alerts = [] then st else (save_alerts dbOk now alerts st).1

/-- The decoded-fields sub-mapping of one uplink: provider field key to
already-coercible numeric value. -/
abbrev DecodedPayload := List (String × ℚ)

/-- The `uplink_message` section of a provider envelope: the optional
`decoded_payload` sub-mapping and the optional `received_at` stamp. -/
structure Uplink where
  decoded_payload : Option DecodedPayload
  received_at : Option String
deriving Repr, DecidableEq

/-- A provider envelope: optionally contains an `uplink_message`. -/
structure Envelope where
  uplink_message : Option Uplink
deriving Repr, DecidableEq

/-- Rendering of a decoded-fields mapping, a component of the
`json.dumps` abstraction below. -/
def dumpsPairs : List (String × ℚ) → String
  | [] => ""
  | (k, v) :: rest => k ++ ":" ++ toString v ++ ";" ++ dumpsPairs rest

/-- Deterministic serialization of an envelope, abstracting
`json.dumps(payload)` in `process_message`; the pipeline only stores the
string verbatim, so only determinism of the rendering matters. -/
def Envelope.dumps (e : Envelope) : String :=
  match e.uplink_message with
  | none => "envelope()"
  | some u =>
    "envelope(uplink(" ++
      (match u.decoded_payload with
       | none => "nodecoded"
       | some d => "decoded(" ++ dumpsPairs d ++ ")") ++ "," ++
      (match u.received_at with
       | none => "noreceived"
       | some t => "received(" ++ t ++ ")") ++ "))"

/-- Embeds `decoded.get(self.config.SENSOR_FIELDS[name], 0.0)` followed by the
float coercion (identity on an already numeric value). -/
def getField (d : DecodedPayload) (name : String) : ℚ :=
  (List.lookup ((List.lookup name Config.SENSOR_FIELDS).getD "") d).getD 0

/-- Embeds `process_message` (data_collector.py lines 190-232): rejects an
envelope without `uplink_message` or without `decoded_payload` (returning
False, store untouched); otherwise decodes the four sensor fields with a
zero default, persists the reading via `save_sensor_data`, and — only
when the insert succeeded and the message is not historical — runs
`check_alerts`. Returns the insert success flag. -/
def process_message (cfg : Thresholds) (dbOk : Bool) (now : String)
    (payload : Envelope) (is_historical : Bool) (st : Store) :
    Store × Bool :=
  match payload.uplink_message with
  | none => (st, false)
  | some uplink =>
    match uplink.decoded_payload with
    | none => (st, false)
    | some decoded =>
      let received_at := uplink.received_at.getD now
      let temperature := getField decoded "temperature"
      let humidity := getField decoded "humidity"
      let battery := getField decoded "battery"
      let motion := pyInt (getField decoded "motion")
      let res := save_sensor_data dbOk temperature humidity battery motion
        received_at payload.dumps st
      if res.2 && !is_historical then
        (check_alerts cfg dbOk now temperature humidity battery res.1,
         res.2)
      else
        (res.1, res.2)

/-- One line of the newline-delimited historical response body:
whitespace-only, unparsable JSON, or a parsed envelope. -/
inductive Line where
  | blank : Line
  | malformed : Line
  | parsed : Envelope → Line
deriving Repr, DecidableEq

/-- The HTTP response seen by `fetch_historical_data`: status code and
body lines. -/
structure HttpResponse where
  status : Nat
  lines : List Line
deriving Repr, DecidableEq

/-- Embeds `fetch_historical_data` (data_collector.py lines 151-188): on a 200
response processes every non-blank parsable line through
`process_message` with `is_historical=True`, counting the successes; the
count is only logged, the Python return value is the Bool (True for a 200
response, False otherwise). The result is (store, returned flag, logged
processed_count). -/
def fetch_historical_data (cfg : Thresholds) (dbOk : Bool) (now : String)
    (resp : HttpResponse) (st : Store) : Store × Bool × Nat :=
  if resp.status = 200 then
    let folded := resp.lines.foldl
      (fun acc line =>
        match line with
        | Line.blank => acc
        | Line.malformed => acc
        | Line.parsed e =>
          let r := process_message cfg dbOk now e true acc.1
          (r.1, acc.2 + (if r.2 then 1 else 0)))
      (st, 0)
    (folded.1, true, folded.2)
  else
    (st, false, 0)

/-! Helper lemmas shared by the claim theorems. -/

/-- The alert-kind discriminator for the temperature metric. -/
def isTempKind (a : AlertTuple) : Bool :=
  a.1 == "TEMP_LOW" || a.1 == "TEMP_HIGH"

/-- The alert-kind discriminator for the humidity metric. -/
def isHumidityKind (a : AlertTuple) : Bool :=
  a.1 == "HUMIDITY_LOW" || a.1 == "HUMIDITY_HIGH"

/-- The alert-kind discriminator for the battery metric. -/
def isBatteryKind (a : AlertTuple) : Bool :=
  a.1 == "BATTERY_LOW"

theorem save_sensor_data_alerts (dbOk : Bool) (t h b : ℚ) (m : Int)
    (ts raw : String) (st : Store) :
    (save_sensor_data dbOk t h b m ts raw st).1.alerts = st.alerts := by
  unfold save_sensor_data
  cases dbOk <;> simp

theorem save_alerts_readings (dbOk : Bool) (now : String)
    (al : List AlertTuple) (st : Store) :
    (save_alerts dbOk now al st).1.readings = st.readings := by
  unfold save_alerts
  cases dbOk <;> simp

theorem check_alerts_readings (cfg : Thresholds) (dbOk : Bool)
    (now : String) (t h b : ℚ) (st : Store) :
    (check_alerts cfg dbOk now t h b st).readings = st.readings := by
  unfold check_alerts
  dsimp only
  split
  · rfl
  · exact save_alerts_readings ..

/-- Claim C5: a Reading ingested with the historical/backfill tag never
persists any Alert, whatever its values: `process_message` with
`is_historical = True` leaves the alerts table exactly as it was. -/
theorem backfill_ingestion_persists_no_alerts (cfg : Thresholds)
    (dbOk : Bool) (now : String) (payload : Envelope) (st : Store) :
    ((process_message cfg dbOk now payload true st).1).alerts =
      st.alerts := by
  obtain ⟨up⟩ := payload
  cases up with
  | none => rfl
  | some u =>
    obtain ⟨dp, ra⟩ := u
    cases dp with
    | none => rfl
    | some d =>
      dsimp only [process_message]
      simp [save_sensor_data_alerts]

/-- Claim C6: alert evaluation yields at most one temperature alert, at
most one humidity alert, and at most three alerts in total for any one
reading under any thresholds. -/
theorem at_most_one_alert_per_metric (cfg : Thresholds) (t h b : ℚ) :
    (computeAlerts cfg t h b).countP isTempKind ≤ 1 ∧
    (computeAlerts cfg t h b).countP isHumidityKind ≤ 1 ∧
    (computeAlerts cfg t h b).length ≤ 3 := by
  unfold computeAlerts
  split_ifs <;> simp [isTempKind, isHumidityKind]

/-- Claim C4: a value exactly equal to a threshold boundary triggers no
alert for its metric, per field — the comparisons of `check_alerts` are
strict. Temperature at either temperature boundary yields zero
temperature alerts whatever humidity and battery are; likewise for
humidity and for battery; and when every metric sits at a boundary the
alert list is empty and the store is untouched. -/
theorem boundary_equal_triggers_no_alert (cfg : Thresholds) (dbOk : Bool)
    (now : String) (t h b : ℚ) (st : Store) :
    (cfg.temperatureMin ≤ cfg.temperatureMax →
      (t = cfg.temperatureMin ∨ t = cfg.temperatureMax) →
      (computeAlerts cfg t h b).countP isTempKind = 0) ∧
    (cfg.humidityMin ≤ cfg.humidityMax →
      (h = cfg.humidityMin ∨ h = cfg.humidityMax) →
      (computeAlerts cfg t h b).countP isHumidityKind = 0) ∧
    (b = cfg.batteryLow →
      (computeAlerts cfg t h b).countP isBatteryKind = 0) ∧
    (cfg.temperatureMin ≤ cfg.temperatureMax →
      cfg.humidityMin ≤ cfg.humidityMax →
      (t = cfg.temperatureMin ∨ t = cfg.temperatureMax) →
      (h = cfg.humidityMin ∨ h = cfg.humidityMax) →
      b = cfg.batteryLow →
      computeAlerts cfg t h b = [] ∧
        check_alerts cfg dbOk now t h b st = st) := by
  refine ⟨?_, ?_, ?_, ?_⟩
  · intro htm ht
    have h1 : ¬ t < cfg.temperatureMin := by
      rcases ht with rfl | rfl
      · exact lt_irrefl _
      · exact not_lt.mpr htm
    have h2 : ¬ t > cfg.temperatureMax := by
      rcases ht with rfl | rfl
      · exact not_lt.mpr htm
      · exact lt_irrefl _
    unfold computeAlerts
    rw [if_neg h1, if_neg h2]
    simp only [List.nil_append, List.countP_append]
    split_ifs <;> simp [isTempKind]
  · intro hhm hh
    have h3 : ¬ h < cfg.humidityMin := by
      rcases hh with rfl | rfl
      · exact lt_irrefl _
      · exact not_lt.mpr hhm
    have h4 : ¬ h > cfg.humidityMax := by
      rcases hh with rfl | rfl
      · exact not_lt.mpr hhm
      · exact lt_irrefl _
    unfold computeAlerts
    rw [if_neg h3, if_neg h4]
    simp only [List.countP_append]
    split_ifs <;> simp [isHumidityKind]
  · intro hb
    have h5 : ¬ b < cfg.batteryLow := hb ▸ lt_irrefl b
    unfold computeAlerts
    rw [if_neg h5]
    simp only [List.countP_append]
    split_ifs <;> simp [isBatteryKind]
  · intro htm hhm ht hh hb
    have h1 : ¬ t < cfg.temperatureMin := by
      rcases ht with rfl | rfl
      · exact lt_irrefl _
      · exact not_lt.mpr htm
    have h2 : ¬ t > cfg.temperatureMax := by
      rcases ht with rfl | rfl
      · exact not_lt.mpr htm
      · exact lt_irrefl _
    have h3 : ¬ h < cfg.humidityMin := by
      rcases hh with rfl | rfl
      · exact lt_irrefl _
      · exact not_lt.mpr hhm
    have h4 : ¬ h > cfg.humidityMax := by
      rcases hh with rfl | rfl
      · exact not_lt.mpr hhm
      · exact lt_irrefl _
    have h5 : ¬ b < cfg.batteryLow := hb ▸ lt_irrefl b
    have hc : computeAlerts cfg t h b = [] := by
      unfold computeAlerts
      simp [h1, h2, h3, h4, h5]
    refine ⟨hc, ?_⟩
    unfold check_alerts
    dsimp only
    rw [if_pos hc]

/-- Witness for C4 at the concrete configured thresholds, one application
per conjunct: temperature 35 (== TEMPERATURE_MAX) with ordinary humidity
50 and battery 4; humidity 80 (== HUMIDITY_MAX) with ordinary temperature
20 and battery 4; battery 3 (== BATTERY_LOW) with ordinary temperature 20
and humidity 50; and all three at their boundaries at once. -/
theorem boundary_equal_triggers_no_alert_witness :
    (computeAlerts Config.thresholds 35 50 4).countP isTempKind = 0 ∧
    (computeAlerts Config.thresholds 20 80 4).countP isHumidityKind = 0 ∧
    (computeAlerts Config.thresholds 20 50 3).countP isBatteryKind = 0 ∧
    (computeAlerts Config.thresholds 35 80 3 = [] ∧
      check_alerts Config.thresholds true "2024-06-01T12:00:00Z" 35 80 3
        ⟨[], []⟩ = ⟨[], []⟩) :=
  ⟨(boundary_equal_triggers_no_alert Config.thresholds true
      "2024-06-01T12:00:00Z" 35 50 4 ⟨[], []⟩).1 (by decide) (Or.inr rfl),
   (boundary_equal_triggers_no_alert Config.thresholds true
      "2024-06-01T12:00:00Z" 20 80 4 ⟨[], []⟩).2.1 (by decide)
     (Or.inr rfl),
   (boundary_equal_triggers_no_alert Config.thresholds true
      "2024-06-01T12:00:00Z" 20 50 3 ⟨[], []⟩).2.2.1 rfl,
   (boundary_equal_triggers_no_alert Config.thresholds true
      "2024-06-01T12:00:00Z" 35 80 3 ⟨[], []⟩).2.2.2 (by decide)
     (by decide) (Or.inr rfl) (Or.inr rfl) rfl⟩

/-- The `sensor_readings` row that `process_message` inserts for an
envelope carrying `decoded_payload` `d` and `received_at` `ra` when the
insert succeeds (data_collector.py lines 204-214): field values decoded
with the zero default, `device_id` the configured constant. -/
def decodedReading (d : DecodedPayload) (ra : Option String)
    (now : String) : Reading :=
  { timestamp := ra.getD now,
    temperature := getField d "temperature",
    humidity := getField d "humidity",
    battery_voltage := getField d "battery",
    motion_count := pyInt (getField d "motion"),
    device_id := Config.TTN_DEVICE_ID,
    raw_data := Envelope.dumps ⟨some ⟨some d, ra⟩⟩ }

theorem process_message_ok_readings (cfg : Thresholds) (now : String)
    (d : DecodedPayload) (ra : Option String) (hist : Bool) (st : Store) :
    (process_message cfg true now ⟨some ⟨some d, ra⟩⟩ hist st).1.readings =
      st.readings ++ [decodedReading d ra now] ∧
    (process_message cfg true now ⟨some ⟨some d, ra⟩⟩ hist st).2 = true := by
  dsimp only [process_message, save_sensor_data]
  cases hist <;>
    simp [check_alerts_readings, decodedReading]

theorem process_message_backfill_ok (cfg : Thresholds) (now : String)
    (d : DecodedPayload) (ra : Option String) (st : Store) :
    process_message cfg true now ⟨some ⟨some d, ra⟩⟩ true st =
      ({ readings := st.readings ++ [decodedReading d ra now],
         alerts := st.alerts }, true) := by
  dsimp only [process_message, save_sensor_data]
  simp [decodedReading]

/-- Claim C7: ingesting the same decodable envelope twice appends two
rows with identical content — `save_sensor_data` always appends and the
schema has no uniqueness constraint, so nothing is deduplicated. -/
theorem duplicate_ingestion_not_deduplicated (cfg : Thresholds)
    (now : String) (d : DecodedPayload) (ra : Option String) (hist : Bool)
    (st : Store) :
    ((process_message cfg true now ⟨some ⟨some d, ra⟩⟩ hist
        (process_message cfg true now ⟨some ⟨some d, ra⟩⟩ hist st).1).1).readings
      = st.readings ++ [decodedReading d ra now, decodedReading d ra now] := by
  rw [(process_message_ok_readings cfg now d ra hist
      (process_message cfg true now ⟨some ⟨some d, ra⟩⟩ hist st).1).1,
    (process_message_ok_readings cfg now d ra hist st).1]
  simp

/-- Claim C9: any configured sensor field absent from the decoded-fields
mapping defaults to zero instead of failing: for every envelope carrying
the uplink and decoded-fields sections, decoding succeeds and persists
exactly the decoded row, and each of the four fields — temperature
(`field5`), humidity (`field3`), battery (`field1`), motion (`field4`) —
is 0 in that row whenever its provider key is missing from the
mapping. -/
theorem missing_field_defaults_to_zero (cfg : Thresholds) (now : String)
    (d : DecodedPayload) (ra : Option String) (hist : Bool) (st : Store) :
    (process_message cfg true now ⟨some ⟨some d, ra⟩⟩ hist st).1.readings =
      st.readings ++ [decodedReading d ra now] ∧
    (process_message cfg true now ⟨some ⟨some d, ra⟩⟩ hist st).2 = true ∧
    (List.lookup "field5" d = none →
      (decodedReading d ra now).temperature = 0) ∧
    (List.lookup "field3" d = none →
      (decodedReading d ra now).humidity = 0) ∧
    (List.lookup "field1" d = none →
      (decodedReading d ra now).battery_voltage = 0) ∧
    (List.lookup "field4" d = none →
      (decodedReading d ra now).motion_count = 0) := by
  have key_t : getField d "temperature" = (List.lookup "field5" d).getD 0 :=
    rfl
  have key_h : getField d "humidity" = (List.lookup "field3" d).getD 0 :=
    rfl
  have key_b : getField d "battery" = (List.lookup "field1" d).getD 0 :=
    rfl
  have key_m : getField d "motion" = (List.lookup "field4" d).getD 0 :=
    rfl
  refine ⟨(process_message_ok_readings cfg now d ra hist st).1,
    (process_message_ok_readings cfg now d ra hist st).2, ?_, ?_, ?_, ?_⟩
  · intro hm
    simp [decodedReading, key_t, hm]
  · intro hm
    simp [decodedReading, key_h, hm]
  · intro hm
    simp [decodedReading, key_b, hm]
  · intro hm
    simp [decodedReading, key_m, hm, pyInt]

/-- Witness for C9: decoded payload with every configured key absent (the
empty mapping); decoding still succeeds, one row is appended, and all
four sensor columns are zero. -/
theorem missing_field_defaults_to_zero_witness :
    (process_message Config.thresholds true "2024-06-01T12:00:00Z"
        ⟨some ⟨some [], some "2024-01-01T00:00:00Z"⟩⟩ true
        ⟨[], []⟩).1.readings =
      ([] : List Reading) ++
        [decodedReading [] (some "2024-01-01T00:00:00Z")
          "2024-06-01T12:00:00Z"] ∧
    (process_message Config.thresholds true "2024-06-01T12:00:00Z"
        ⟨some ⟨some [], some "2024-01-01T00:00:00Z"⟩⟩ true
        ⟨[], []⟩).2 = true ∧
    (decodedReading [] (some "2024-01-01T00:00:00Z")
      "2024-06-01T12:00:00Z").temperature = 0 ∧
    (decodedReading [] (some "2024-01-01T00:00:00Z")
      "2024-06-01T12:00:00Z").humidity = 0 ∧
    (decodedReading [] (some "2024-01-01T00:00:00Z")
      "2024-06-01T12:00:00Z").battery_voltage = 0 ∧
    (decodedReading [] (some "2024-01-01T00:00:00Z")
      "2024-06-01T12:00:00Z").motion_count = 0 :=
  have hmain := missing_field_defaults_to_zero Config.thresholds
    "2024-06-01T12:00:00Z" [] (some "2024-01-01T00:00:00Z") true ⟨[], []⟩
  ⟨hmain.1, hmain.2.1, hmain.2.2.1 rfl, hmain.2.2.2.1 rfl,
    hmain.2.2.2.2.1 rfl, hmain.2.2.2.2.2 rfl⟩

/-- All rows of a readings list bear the configured device identifier. -/
def allConfigured (l : List Reading) : Bool :=
  l.all fun r => r.device_id == Config.TTN_DEVICE_ID

/-- Claim C10: `save_sensor_data` stamps every inserted row with
`Config.TTN_DEVICE_ID`, ignoring any identity in the envelope, so the
configured-device-id invariant on the readings table is preserved by
message processing. -/
theorem every_row_bears_configured_device_id (cfg : Thresholds)
    (dbOk : Bool) (now : String) (payload : Envelope) (hist : Bool)
    (st : Store) (hinv : allConfigured st.readings = true) :
    allConfigured
      (process_message cfg dbOk now payload hist st).1.readings = true := by
  obtain ⟨up⟩ := payload
  cases up with
  | none => exact hinv
  | some u =>
    obtain ⟨dp, ra⟩ := u
    cases dp with
    | none => exact hinv
    | some d =>
      cases dbOk with
      | false => exact hinv
      | true =>
        rw [allConfigured,
          (process_message_ok_readings cfg now d ra hist st).1]
        rw [allConfigured] at hinv
        simp [hinv, decodedReading]

/-- Witness for C10: processing a live envelope whose decoded payload is
arbitrary starts from the empty store and keeps the invariant. -/
theorem every_row_bears_configured_device_id_witness :
    allConfigured (Store.readings ⟨[], []⟩) = true ∧
    allConfigured
      (process_message Config.thresholds true "2024-06-01T12:00:00Z"
        ⟨some ⟨some [("field5", (36 : ℚ)), ("field3", 50), ("field1", (4 : ℚ))],
          some "2024-01-01T00:00:00Z"⟩⟩ false ⟨[], []⟩).1.readings = true :=
  ⟨by decide,
    every_row_bears_configured_device_id Config.thresholds true
      "2024-06-01T12:00:00Z"
      ⟨some ⟨some [("field5", (36 : ℚ)), ("field3", 50), ("field1", (4 : ℚ))],
        some "2024-01-01T00:00:00Z"⟩⟩ false ⟨[], []⟩ (by decide)⟩

/-- Claim C8: an envelope without the `uplink_message` section, or whose
uplink lacks `decoded_payload`, is rejected before any store access:
`process_message` returns False and the store is exactly what it was. -/
theorem missing_sections_reject_without_persisting (cfg : Thresholds)
    (dbOk : Bool) (now : String) (payload : Envelope) (hist : Bool)
    (st : Store)
    (hbad : payload.uplink_message = none ∨
      ∃ u, payload.uplink_message = some u ∧ u.decoded_payload = none) :
    process_message cfg dbOk now payload hist st = (st, false) := by
  unfold process_message
  rcases hbad with h | ⟨u, h, hd⟩
  · rw [h]
  · rw [h]
    dsimp only
    rw [hd]

/-- Witness for C8: the empty envelope and an envelope with an uplink but
no decoded fields are both rejected, the store untouched. -/
theorem missing_sections_reject_without_persisting_witness :
    process_message Config.thresholds true "2024-06-01T12:00:00Z"
        ⟨none⟩ false ⟨[], []⟩ = (⟨[], []⟩, false) ∧
    process_message Config.thresholds true "2024-06-01T12:00:00Z"
        ⟨some ⟨none, some "2024-01-01T00:00:00Z"⟩⟩ false ⟨[], []⟩ =
      (⟨[], []⟩, false) :=
  ⟨missing_sections_reject_without_persisting Config.thresholds true
      "2024-06-01T12:00:00Z" ⟨none⟩ false ⟨[], []⟩ (Or.inl rfl),
    missing_sections_reject_without_persisting Config.thresholds true
      "2024-06-01T12:00:00Z" ⟨some ⟨none, some "2024-01-01T00:00:00Z"⟩⟩
      false ⟨[], []⟩
      (Or.inr ⟨⟨none, some "2024-01-01T00:00:00Z"⟩, rfl, rfl⟩)⟩

theorem check_alerts_alerts_append (cfg : Thresholds) (dbOk : Bool)
    (now : String) (t h b : ℚ) (st : Store) :
    ∃ new, (check_alerts cfg dbOk now t h b st).alerts = st.alerts ++ new
      ∧ new.all (fun a => a.timestamp == now) = true := by
  unfold check_alerts save_alerts
  dsimp only
  split
  · exact ⟨[], by simp⟩
  · cases dbOk with
    | false => exact ⟨[], by simp⟩
    | true =>
      refine ⟨(computeAlerts cfg t h b).map (mkAlert now), by simp, ?_⟩
      simp only [List.all_eq_true, List.mem_map]
      rintro a ⟨t, ht, rfl⟩
      simp [mkAlert]

/-- Counterexample to claim C1: a live reading stamped
2024-01-01T00:00:00Z whose temperature 36 exceeds the configured max is
ingested when the wall clock reads 2024-06-01T12:00:00Z; the persisted
alert carries the wall-clock write time, not the reading's timestamp. -/
theorem alert_timestamp_not_reading_timestamp :
    ((process_message Config.thresholds true "2024-06-01T12:00:00Z"
        ⟨some ⟨some [("field5", (36 : ℚ)), ("field3", 50), ("field1", (4 : ℚ))],
          some "2024-01-01T00:00:00Z"⟩⟩ false
        ⟨[], []⟩).1.readings.map Reading.timestamp =
      ["2024-01-01T00:00:00Z"]) ∧
    ((process_message Config.thresholds true "2024-06-01T12:00:00Z"
        ⟨some ⟨some [("field5", (36 : ℚ)), ("field3", 50), ("field1", (4 : ℚ))],
          some "2024-01-01T00:00:00Z"⟩⟩ false
        ⟨[], []⟩).1.alerts.map Alert.timestamp =
      ["2024-06-01T12:00:00Z"]) ∧
    ("2024-06-01T12:00:00Z" : String) ≠ "2024-01-01T00:00:00Z" := by
  decide

/-- Claim C1 as amended: every Alert persisted for a live reading is
stamped with the wall-clock time at which the alert row is written
(`datetime.now()` inside `save_alerts`), which need not equal the source
Reading's timestamp. -/
theorem live_alerts_stamped_with_write_time (cfg : Thresholds)
    (dbOk : Bool) (now : String) (payload : Envelope) (st : Store) :
    ∃ new, (process_message cfg dbOk now payload false st).1.alerts =
        st.alerts ++ new ∧
      new.all (fun a => a.timestamp == now) = true := by
  obtain ⟨up⟩ := payload
  cases up with
  | none => exact ⟨[], by simp [process_message], rfl⟩
  | some u =>
    obtain ⟨dp, ra⟩ := u
    cases dp with
    | none => exact ⟨[], by simp [process_message], rfl⟩
    | some d =>
      cases dbOk with
      | false =>
        exact ⟨[], by simp [process_message, save_sensor_data], rfl⟩
      | true =>
        dsimp only [process_message, save_sensor_data]
        exact check_alerts_alerts_append cfg true now _ _ _ _

/-- Counterexample to claim C3: an alert-insert failure is invisible to
the caller of `save_alerts` — the failing call and the succeeding call
return the very same value (None), even though only the succeeding one
changed the store. -/
theorem alert_insert_failure_not_reported :
    (save_alerts false "2024-06-01T12:00:00Z"
        [("TEMP_HIGH", "Temperature too high: 36°C", 36, 35)]
        ⟨[], []⟩).2 =
      (save_alerts true "2024-06-01T12:00:00Z"
        [("TEMP_HIGH", "Temperature too high: 36°C", 36, 35)]
        ⟨[], []⟩).2 ∧
    (save_alerts false "2024-06-01T12:00:00Z"
        [("TEMP_HIGH", "Temperature too high: 36°C", 36, 35)]
        ⟨[], []⟩).1 ≠
      (save_alerts true "2024-06-01T12:00:00Z"
        [("TEMP_HIGH", "Temperature too high: 36°C", 36, 35)]
        ⟨[], []⟩).1 := by
  decide

/-- Claim C3 as amended: a failed Reading insert is reported to the
caller through `save_sensor_data`'s boolean return, but a failed Alert
insert is caught and only logged inside `save_alerts`, whose return value
is None whether the insert succeeded or failed. -/
theorem store_layer_failure_reporting (dbOk : Bool) (t h b : ℚ)
    (m : Int) (ts raw now : String) (al : List AlertTuple) (st : Store) :
    (save_sensor_data dbOk t h b m ts raw st).2 = dbOk ∧
    (save_alerts dbOk now al st).2 = PyRet.pyNone := by
  cases dbOk <;> simp [save_sensor_data, save_alerts]

/-- Counterexample to claim C2: the value `fetch_historical_data` returns
is the same for a 200 response that ingests two records and for a 200
response that ingests none, so the return value is the boolean success
flag, not the integer ingested count (which is only logged: 2 in the
first run, 0 in the second). -/
theorem fetch_return_flag_not_count :
    (fetch_historical_data Config.thresholds true "2024-06-01T12:00:00Z"
        ⟨200, [Line.parsed ⟨some ⟨some [("field5", (20 : ℚ))], some "t1"⟩⟩,
               Line.malformed,
               Line.parsed ⟨some ⟨some [("field5", (21 : ℚ))], some "t2"⟩⟩]⟩
        ⟨[], []⟩).2.1 =
      (fetch_historical_data Config.thresholds true "2024-06-01T12:00:00Z"
        ⟨200, []⟩ ⟨[], []⟩).2.1 ∧
    (fetch_historical_data Config.thresholds true "2024-06-01T12:00:00Z"
        ⟨200, [Line.parsed ⟨some ⟨some [("field5", (20 : ℚ))], some "t1"⟩⟩,
               Line.malformed,
               Line.parsed ⟨some ⟨some [("field5", (21 : ℚ))], some "t2"⟩⟩]⟩
        ⟨[], []⟩).2.2 = 2 ∧
    (fetch_historical_data Config.thresholds true "2024-06-01T12:00:00Z"
        ⟨200, []⟩ ⟨[], []⟩).2.2 = 0 := by
  decide

/-- Claim C2 as amended: on an HTTP 200 response the fetch returns True
(and False otherwise); the count of successfully ingested records is
computed and logged but not returned. For a body of three records with
one malformed line, two Readings are persisted, zero Alerts are
persisted, and the logged count is 2. -/
theorem fetch_three_lines_one_malformed (cfg : Thresholds) (now : String)
    (d1 d2 : DecodedPayload) (ra1 ra2 : Option String) (st : Store) :
    fetch_historical_data cfg true now
        ⟨200, [Line.parsed ⟨some ⟨some d1, ra1⟩⟩, Line.malformed,
               Line.parsed ⟨some ⟨some d2, ra2⟩⟩]⟩ st =
      ({ readings := st.readings ++
            [decodedReading d1 ra1 now, decodedReading d2 ra2 now],
         alerts := st.alerts }, true, 2) := by
  unfold fetch_historical_data
  rw [if_pos rfl]
  dsimp only [List.foldl]
  rw [process_message_backfill_ok]
  dsimp only
  rw [process_message_backfill_ok]
  simp

end EnvMonitor
